import Mathlib

/-!
Verification of the document-intelligence pipeline of the
`Synthese-carte-financement` repository (src/services/llm_classifier.py,
src/services/synthesis_generator.py, src/main.py, src/database.py,
src/models/schemas.py) against its natural-language specification.

The Python code is shallowly embedded: pure string manipulation becomes
Lean functions on `List Char`, the external LLM ("Inference") and the
per-document processing pipeline become explicit oracle parameters, and
float confidences become `Rat`.  Apostrophes inside string literals are
written with the escape `\x27`.
-/

namespace CarteFin

/-- ASCII lower-casing of one character, as Python `str.lower` acts on the
ASCII range (all catalog strings that matter here are lowercased only in
their ASCII letters; accented characters in the catalog are already
lower-case). -/
def lowerChar (c : Char) : Char :=
  if 'A' ≤ c ∧ c ≤ 'Z' then Char.ofNat (c.toNat + 32) else c

/-- Lower-case a character list (Python `s.lower()`). -/
def lowerL (l : List Char) : List Char := l.map lowerChar

/-- Does `l` start with the pattern `p`? -/
def startsWithL : List Char → List Char → Bool
  | [], _ => true
  | _ :: _, [] => false
  | a :: as, b :: bs => a = b && startsWithL as bs

/-- Substring containment, Python `needle in haystack` on strings
(the empty needle is contained in everything). -/
def containsSub (needle : List Char) : List Char → Bool
  | [] => needle.isEmpty
  | c :: rest => startsWithL needle (c :: rest) || containsSub needle rest

/-- Does `l` end with the pattern `p`? (Python `str.endswith`). -/
def endsWithL (p l : List Char) : Bool := startsWithL p.reverse l.reverse

/-- Helper for `words`: accumulate the current word (reversed) while
scanning. -/
def wordsAux : List Char → List Char → List (List Char)
  | [], acc => if acc.isEmpty then [] else [acc.reverse]
  | c :: cs, acc =>
    if c = ' ' then
      if acc.isEmpty then wordsAux cs [] else acc.reverse :: wordsAux cs []
    else wordsAux cs (c :: acc)

/-- Split into whitespace-separated words, Python `s.split()` (the catalog
names only contain single spaces as separators). -/
def words (l : List Char) : List (List Char) := wordsAux l []

/-- Byte-order (≤) comparison of two character lists; UTF-8 byte order
coincides with code-point order, which is SQLite\x27s BINARY collation used
by `ORDER BY` in src/database.py. -/
def charListLe : List Char → List Char → Bool
  | [], _ => true
  | _ :: _, [] => false
  | a :: as, b :: bs =>
    if a.toNat < b.toNat then true
    else if b.toNat < a.toNat then false
    else charListLe as bs

/-- One row of the `document_types` table (src/database.py, the seed list
in `init_database`). -/
structure DocTypeDef where
  id : Nat
  name : String
  category : String
deriving DecidableEq

/-- The 47 seed rows of the `document_types` table, in the insertion order
of src/database.py lines 98–146. -/
def document_types_seed : List DocTypeDef := [
  ⟨1, "CV(s) du(des) associés", "Associés"⟩,
  ⟨2, "Compromis de vente", "Object"⟩,
  ⟨3, "Bail ou projet de bail du bien objet de l\x27acquisition", "Object"⟩,
  ⟨4, "Projet de statuts société emprunteur", "Company"⟩,
  ⟨5, "Organigramme des sociétés de la société emprunteur", "Company"⟩,
  ⟨6, "KBIS société emprunteur", "Company"⟩,
  ⟨7, "Statuts société emprunteur", "Company"⟩,
  ⟨8, "PV d\x27AG autorisant la société à emprunter", "Company"⟩,
  ⟨9, "Liasses fiscales société emprunteur N-1", "Company"⟩,
  ⟨10, "Liasses fiscales société emprunteur N-2", "Company"⟩,
  ⟨11, "Liasses fiscales société emprunteur N-3", "Company"⟩,
  ⟨12, "Bilan et compte de résultat détaillés de l\x27emprunteur N-1", "Company"⟩,
  ⟨13, "Bilan et compte de résultat détaillés de l\x27emprunteur N-2", "Company"⟩,
  ⟨14, "Bilan et compte de résultat détaillés de l\x27emprunteur N-3", "Company"⟩,
  ⟨15, "Relevé de compte Mois M - 1", "Banque et épargne"⟩,
  ⟨16, "Relevé de compte Mois M - 2", "Banque et épargne"⟩,
  ⟨17, "Relevé de compte Mois M - 3", "Banque et épargne"⟩,
  ⟨18, "Carte d\x27identité(recto verso) ou Passeport", "Etat civil"⟩,
  ⟨19, "Justificatif de domicile", "Etat civil"⟩,
  ⟨20, "Livret de famille", "Etat civil"⟩,
  ⟨21, "Contrat de mariage", "Etat civil"⟩,
  ⟨22, "Avis d\x27imposition N - 1", "Revenus"⟩,
  ⟨23, "Avis d\x27imposition N - 2", "Revenus"⟩,
  ⟨24, "Avis d\x27imposition N - 3", "Revenus"⟩,
  ⟨25, "Dernière taxe foncière", "Patrimoine immobilier"⟩,
  ⟨26, "Attestation notariée d\x27acquisition indiquant le prix", "Patrimoine immobilier"⟩,
  ⟨27, "Bail", "Patrimoine immobilier"⟩,
  ⟨28, "Tableau d\x27amortissement du crédit immobilier", "Patrimoine immobilier"⟩,
  ⟨29, "Dernière déclaration 2044", "Revenus"⟩,
  ⟨30, "Dernier relevé d\x27épargne", "Banque et épargne"⟩,
  ⟨31, "Tableau d\x27amortissement crédit en cours", "Crédits et charges divers hors immobilier"⟩,
  ⟨32, "Organigramme des sociétés contrôlées", "Sociétés contrôlées"⟩,
  ⟨33, "Statuts de la société contrôlée", "Sociétés contrôlées"⟩,
  ⟨34, "Relevé de compte de la société contrôlée M - 1", "Sociétés contrôlées"⟩,
  ⟨35, "Relevé de compte de la société contrôlée M - 2", "Sociétés contrôlées"⟩,
  ⟨36, "Relevé de compte de la société contrôlée M - 3", "Sociétés contrôlées"⟩,
  ⟨37, "KBIS de la société contrôlée", "Sociétés contrôlées"⟩,
  ⟨38, "Dernière déclaration 2072", "Sociétés contrôlées"⟩,
  ⟨39, "Bilans et comptes de résultat de la société contrôlée N-1", "Sociétés contrôlées"⟩,
  ⟨40, "Bilans et comptes de résultat de la société contrôlée N-2", "Sociétés contrôlées"⟩,
  ⟨41, "Bilans et comptes de résultat de la société contrôlée N-3", "Sociétés contrôlées"⟩,
  ⟨42, "Liasses fiscales de la société contrôlée N-1", "Sociétés contrôlées"⟩,
  ⟨43, "Liasses fiscales de la société contrôlée N-2", "Sociétés contrôlées"⟩,
  ⟨44, "Liasses fiscales de la société contrôlée N-3", "Sociétés contrôlées"⟩,
  ⟨45, "Arrêté du permis de construire", "Object"⟩,
  ⟨46, "Autre", "Object"⟩,
  ⟨47, "Autre", "Company"⟩]

/-- `INSERT OR IGNORE` under the `UNIQUE` constraint on `name`: keep the
first row for each name (the second "Autre" row, id 47, is ignored). -/
def insert_or_ignore_by_name (seen : List String) : List DocTypeDef → List DocTypeDef
  | [] => []
  | t :: ts =>
    if t.name ∈ seen then insert_or_ignore_by_name seen ts
    else t :: insert_or_ignore_by_name (t.name :: seen) ts

/-- The ordering key of `SELECT * FROM document_types ORDER BY category,
name` (src/database.py line 294) under SQLite BINARY collation. -/
def sqlRowLe (a b : DocTypeDef) : Bool :=
  if a.category = b.category then charListLe a.name.data b.name.data
  else charListLe a.category.data b.category.data

/-- Insertion into a list sorted by `sqlRowLe`. -/
def insertSortedRow (t : DocTypeDef) : List DocTypeDef → List DocTypeDef
  | [] => [t]
  | u :: us => if sqlRowLe t u then t :: u :: us else u :: insertSortedRow t us

/-- Insertion sort by `sqlRowLe` (all (category, name) keys are distinct,
so any correct sort produces the SQL result order). -/
def sortRows (ts : List DocTypeDef) : List DocTypeDef := ts.foldr insertSortedRow []

/-- The rows `get_document_types()` returns: the deduplicated seed, ordered
by category then name. -/
def db_document_types : List DocTypeDef := sortRows (insert_or_ignore_by_name [] document_types_seed)

/-- `self.document_types` of `LLMClassifier` after
`_load_document_types_from_db` (src/services/llm_classifier.py line 89). -/
def documentTypes : List String := db_document_types.map (fun t => t.name)

/-- `self.categories` of `LLMClassifier`: name-to-category association
built from the same rows (src/services/llm_classifier.py line 90). -/
def categoriesMap : List (String × String) := db_document_types.map (fun t => (t.name, t.category))

/-- Python `self.categories.get(doc_type, "Autre")`. -/
def categories_get (cats : List (String × String)) (name : String) : String :=
  match cats.find? (fun p => p.1 = name) with
  | some p => p.2
  | none => "Autre"

/-- Raw structured output of the Inference call before pydantic validation:
the field values of `DocumentClassification` (src/models/schemas.py lines
9–14) as produced by the LLM function call. -/
structure RawClassification where
  document_type : String
  category : String
  confidence : Rat
  reasoning : String
deriving DecidableEq

/-- A validated `DocumentClassification` (src/models/schemas.py lines 9–14):
its `confidence` field carries the pydantic bounds `ge=0.0, le=1.0`. -/
structure DocumentClassification where
  document_type : String
  category : String
  confidence : Rat
  reasoning : String
deriving DecidableEq

/-- Pydantic validation of `DocumentClassification`: construction fails
when the confidence lies outside `[0, 1]` (the `Field(ge=0.0, le=1.0)`
constraint in src/models/schemas.py line 13). -/
def parse_document_classification (raw : RawClassification) : Except String DocumentClassification :=
  if 0 ≤ raw.confidence ∧ raw.confidence ≤ 1 then
    .ok ⟨raw.document_type, raw.category, raw.confidence, raw.reasoning⟩
  else .error "validation error: confidence is not between 0 and 1"

/-- Outcome of one call to the structured-output Inference chain: either
the LLM produced a function-call payload (which still has to pass pydantic
validation), or the call raised. -/
inductive InferCall where
  | output (raw : RawClassification)
  | raiseExc (msg : String)
deriving DecidableEq

/-- The `ClassificationResult` wrapper (src/models/schemas.py lines 17–22);
the `processing_time` field is wall-clock time and is not modelled. -/
structure ClassificationResult where
  success : Bool
  classification : DocumentClassification
  error_message : Option String
deriving DecidableEq

/-- `LLMClassifier._find_closest_match` (src/services/llm_classifier.py
lines 255–278): case-insensitive substring containment in either
direction, then an "autre" entry, then the first entry. -/
def find_closest_match (types : List String) (document_type : String) : String :=
  let dtl := lowerL document_type.data
  match types.find? (fun dt => containsSub dtl (lowerL dt.data) || containsSub (lowerL dt.data) dtl) with
  | some dt => dt
  | none =>
    match types.find? (fun dt => containsSub "autre".data (lowerL dt.data)) with
    | some dt => dt
    | none =>
      match types with
      | dt :: _ => dt
      | [] => "Document non identifié"

/-- `LLMClassifier._validate_and_correct_result` (src/services/
llm_classifier.py lines 174–200).  Note: this method is defined in the
source but never called from `classify_document` or anywhere else. -/
def validate_and_correct_result (types : List String) (cats : List (String × String))
    (result : DocumentClassification) : DocumentClassification :=
  let r1 := if result.document_type ∈ types then result
            else { result with document_type := find_closest_match types result.document_type }
  let expected := categories_get cats r1.document_type
  let r2 := if r1.category = expected then r1 else { r1 with category := expected }
  if 0 ≤ r2.confidence ∧ r2.confidence ≤ 1 then r2 else { r2 with confidence := mkRat 1 2 }

/-- The first keyword of a catalog name that triggers the keyword fallback
for a given lower-cased text: the name is split into words and the first
word longer than 3 characters occurring in the text is returned
(src/services/llm_classifier.py lines 296–299). -/
def first_keyword_hit (textLower : List Char) (docType : String) : Option (List Char) :=
  (words (lowerL docType.data)).find? (fun kw => decide (kw.length > 3) && containsSub kw textLower)

/-- `LLMClassifier._fallback_classification` (src/services/
llm_classifier.py lines 280–327): first catalog entry with a matching
keyword at confidence 0.3, else the first "autre" entry at 0.2, else the
first entry at 0.1. -/
def fallback_classification (types : List String) (cats : List (String × String))
    (text : String) : DocumentClassification :=
  let textLower := lowerL text.data
  match types.findSome? (fun dt => (first_keyword_hit textLower dt).map (fun kw => (dt, kw))) with
  | some (dt, kw) =>
    { document_type := dt, category := categories_get cats dt, confidence := mkRat 3 10,
      reasoning := "Classification de secours par mot-clé: " ++ String.mk kw }
  | none =>
    match types.find? (fun dt => containsSub "autre".data (lowerL dt.data)) with
    | some dt =>
      { document_type := dt, category := categories_get cats dt, confidence := mkRat 1 5,
        reasoning := "Classification de secours: Autre" }
    | none =>
      match types with
      | dt :: _ =>
        { document_type := dt, category := categories_get cats dt, confidence := mkRat 1 10,
          reasoning := "Classification par défaut (erreur LLM)" }
      | [] =>
        { document_type := "Document non identifié",
          category := categories_get cats "Document non identifié", confidence := mkRat 1 10,
          reasoning := "Classification par défaut (erreur LLM)" }

/-- `LLMClassifier._strict_validation_and_reclassification` (src/services/
llm_classifier.py lines 202–253): re-ask the LLM with a stricter prompt;
keep the answer only when it is a catalog member, return `none` on any
exception (including pydantic validation failure of the retry output). -/
def strict_validation_and_reclassification (types : List String) (llmAvailable : Bool)
    (retryCall : InferCall) : Option DocumentClassification :=
  if llmAvailable = false then none
  else
    match retryCall with
    | .raiseExc _ => none
    | .output raw =>
      match parse_document_classification raw with
      | .error _ => none
      | .ok dc => if dc.document_type ∈ types then some dc else none

/-- `LLMClassifier.classify_document` (src/services/llm_classifier.py
lines 100–172).  `llmAvailable` models `self.chain` being initialised;
`call` is the primary structured-output Inference call on the truncated
text (the 8000-character truncation only shapes the prompt given to the
oracle); `retryCall` is the Inference call made by the strict
reclassification when the returned type is absent from the catalog or
contains "autre".  An exception raised by the call and a pydantic/parsing
failure of its payload both route to the keyword fallback with
`success = false` and the triggering error recorded. -/
def classify_document (types : List String) (cats : List (String × String)) (text : String)
    (llmAvailable : Bool) (call : InferCall) (retryCall : InferCall) : ClassificationResult :=
  if llmAvailable = false then
    { success := false, classification := fallback_classification types cats text,
      error_message := some "Chaîne LangChain non initialisée" }
  else
    match call with
    | .raiseExc msg =>
      { success := false, classification := fallback_classification types cats text,
        error_message := some msg }
    | .output raw =>
      match parse_document_classification raw with
      | .error msg =>
        { success := false, classification := fallback_classification types cats text,
          error_message := some ("Erreur parsing: " ++ msg) }
      | .ok result =>
        let final :=
          if result.document_type ∉ types ∨ containsSub "autre".data (lowerL result.document_type.data) then
            match strict_validation_and_reclassification types llmAvailable retryCall with
            | some improved => improved
            | none => result
          else result
        { success := true, classification := final, error_message := none }

/-- Outcome of the structured extraction Inference call
(`extraction_chain.ainvoke` in src/services/llm_classifier.py line 409):
either the model dump of the pydantic extraction model, or an exception. -/
inductive ExtractCall where
  | output (fields : List (String × String))
  | raiseExc (msg : String)
deriving DecidableEq

/-- The `final_result` dictionary built on extraction success
(src/services/llm_classifier.py lines 418–425); the timestamp and the
model name are not modelled. -/
structure NormalizedExtraction where
  document_type : String
  category : String
  extracted_fields : List (String × String)
  confidence : Rat
deriving DecidableEq

/-- The dictionary `extract_document_data` returns (src/services/
llm_classifier.py lines 433–440 and 457–463); on success `extracted_data`
is the JSON encoding of the normalized result, modelled structurally. -/
structure ExtractionResponse where
  success : Bool
  extracted_data : Option NormalizedExtraction
  error : Option String
  confidence : Rat
deriving DecidableEq

/-- `LLMClassifier.extract_document_data` (src/services/llm_classifier.py
lines 355–463): no fallback exists for extraction — an uninitialised LLM
or a raised Inference call is surfaced with `success = false`, no data and
confidence 0; success carries the fixed confidence 0.9. -/
def extract_document_data (cats : List (String × String)) (llmAvailable : Bool)
    (document_type : String) (call : ExtractCall) : ExtractionResponse :=
  if llmAvailable = false then
    { success := false, extracted_data := none, error := some "LLM non initialisé",
      confidence := 0 }
  else
    match call with
    | .output fields =>
      { success := true,
        extracted_data := some { document_type := document_type,
                                 category := categories_get cats document_type,
                                 extracted_fields := fields, confidence := mkRat 9 10 },
        error := none, confidence := mkRat 9 10 }
    | .raiseExc msg =>
      { success := false, extracted_data := none,
        error := some ("Extraction échouée: " ++ msg), confidence := 0 }

/-- One uploaded file as seen by `process_single_file` in src/main.py:
its name and its optional size attribute. -/
structure UploadFile where
  filename : String
  size : Option Nat
deriving DecidableEq, Inhabited

/-- What happens inside one document\x27s unit of work after the two
validations pass: some step raises, the extracted text is blank, or the
pipeline completes with a stored document id (src/main.py lines 146–217). -/
inductive PipelineEvent where
  | raises (msg : String)
  | emptyText
  | completes (documentId : Nat)
deriving DecidableEq

/-- The per-document result dictionary of `process_single_file`
(src/main.py lines 127–217), restricted to the fields common to the
success and failure shapes. -/
structure FileOutcome where
  success : Bool
  filename : String
  error : Option String
  document_id : Option Nat
deriving DecidableEq, Inhabited

/-- `config.SUPPORTED_EXTENSIONS` (src/config.py line 35). -/
def SUPPORTED_EXTENSIONS : List String := [".pdf", ".png", ".jpg", ".jpeg", ".tiff", ".bmp"]

/-- `config.MAX_FILE_SIZE` (src/config.py line 29), 50 MB. -/
def MAX_FILE_SIZE : Nat := 50 * 1024 * 1024

/-- Python `file.filename.lower().endswith(tuple(config.SUPPORTED_EXTENSIONS))`. -/
def has_supported_extension (exts : List String) (filename : String) : Bool :=
  exts.any (fun e => endsWithL e.data (lowerL filename.data))

/-- Python `file.size and file.size > config.MAX_FILE_SIZE` (a `None` or
zero size skips the check by truthiness). -/
def size_exceeds (maxSize : Nat) : Option Nat → Bool
  | some s => decide (s ≠ 0) && decide (s > maxSize)
  | none => false

/-- `process_single_file` (src/main.py lines 127–217): extension and size
are validated before any pipeline work; every exception inside the body is
caught and converted into a failure dictionary for this document, so the
function is total.  The dynamic parts of the error strings are abbreviated. -/
def process_single_file (file : UploadFile) (ev : PipelineEvent) : FileOutcome :=
  if has_supported_extension SUPPORTED_EXTENSIONS file.filename = false then
    { success := false, filename := file.filename,
      error := some "Type de fichier non supporté", document_id := none }
  else if size_exceeds MAX_FILE_SIZE file.size then
    { success := false, filename := file.filename,
      error := some "Fichier trop volumineux", document_id := none }
  else
    match ev with
    | .raises msg =>
      { success := false, filename := file.filename, error := some msg, document_id := none }
    | .emptyText =>
      { success := false, filename := file.filename,
        error := some "Impossible d\x27extraire le texte du document", document_id := none }
    | .completes documentId =>
      { success := true, filename := file.filename, error := none,
        document_id := some documentId }

/-- One asyncio task of the batch: the task either runs
`process_single_file` to completion on its pipeline event, or fails at the
task level (`asyncio.gather` receives the exception object). -/
def run_task (file : UploadFile) (t : Except String PipelineEvent) : Except String FileOutcome :=
  match t with
  | .error msg => .error msg
  | .ok ev => .ok (process_single_file file ev)

/-- The clean-up loop of src/main.py lines 231–240: an exception delivered
by `asyncio.gather(..., return_exceptions=True)` is converted into a
failure outcome carrying that document\x27s filename. -/
def clean_result (file : UploadFile) (r : Except String FileOutcome) : FileOutcome :=
  match r with
  | .error msg =>
    { success := false, filename := file.filename,
      error := some ("Erreur de traitement: " ++ msg), document_id := none }
  | .ok o => o

/-- The stream of task completions: tasks finish in an arbitrary order
(`order` lists the task indices by completion time) and each completion
carries its index together with its task result. -/
def completions (files : List UploadFile) (tasks : List (Except String PipelineEvent))
    (order : List Nat) : List (Nat × Except String FileOutcome) :=
  order.map (fun i => (i, run_task (files.getD i default) (tasks.getD i (.error "task missing"))))

/-- `asyncio.gather` re-assembles the completion stream by task index, so
the result list follows the order in which the tasks were created. -/
def gather_results (n : Nat) (comps : List (Nat × Except String FileOutcome)) :
    List (Except String FileOutcome) :=
  (List.range n).map (fun i =>
    match comps.find? (fun p => p.1 = i) with
    | some p => p.2
    | none => .error "task result missing")

/-- `process_multiple_files` (src/main.py lines 104–254): run one task per
uploaded file, gather the results in input order regardless of completion
order, and convert task-level exceptions into failure outcomes.  The
optional synthesis step after the loop is modelled separately by
`generate_synthesis`. -/
def process_multiple_files (files : List UploadFile) (tasks : List (Except String PipelineEvent))
    (order : List Nat) : List FileOutcome :=
  (files.zip (gather_results files.length (completions files tasks order))).map
    (fun fr => clean_result fr.1 fr.2)

/-- The HTTP-level response of the upload-multiple endpoint: either an
`HTTPException` or the batch outcome list. -/
inductive UploadResponse where
  | httpError (statusCode : Nat) (detail : String)
  | batch (results : List FileOutcome)
deriving DecidableEq

/-- `upload_multiple_documents` (src/main.py lines 82–102): more than 50
files are rejected with HTTP 400 before `process_multiple_files` runs. -/
def upload_multiple_documents (files : List UploadFile)
    (tasks : List (Except String PipelineEvent)) (order : List Nat) : UploadResponse :=
  if files.length > 50 then
    .httpError 400 "Maximum 50 fichiers autorisés par requête"
  else
    .batch (process_multiple_files files tasks order)

/-- Scheduling state of one batch worker with respect to the semaphore of
`process_with_semaphore` (src/main.py lines 220–224): not yet entered the
`async with semaphore` block, inside it, or finished. -/
inductive WorkerPhase where
  | waiting
  | running
  | done
deriving DecidableEq

/-- Number of workers currently holding the external-call slot. -/
def countRunning : List WorkerPhase → Nat
  | [] => 0
  | p :: ps => (if p = WorkerPhase.running then 1 else 0) + countRunning ps

/-- Interleaving semantics of `asyncio.Semaphore` for the batch
(src/main.py lines 220–228): the state is the semaphore\x27s free permit
count paired with every worker\x27s phase.  A waiting worker may enter the
semaphore block only when a permit is free (acquire decrements the
counter, exactly `asyncio.Semaphore.acquire`); a running worker may leave
the block at any time, releasing its permit. -/
inductive SemStep : Nat × List WorkerPhase → Nat × List WorkerPhase → Prop where
  | acquire (permits : Nat) (phases : List WorkerPhase) (i : Nat)
      (hw : phases.getD i .done = .waiting) (hp : 0 < permits) :
      SemStep (permits, phases) (permits - 1, phases.set i .running)
  | release (permits : Nat) (phases : List WorkerPhase) (i : Nat)
      (hr : phases.getD i .done = .running) :
      SemStep (permits, phases) (permits + 1, phases.set i .done)

/-- The initial batch state with `asyncio.Semaphore(5)` (src/main.py line
220) and `n` queued documents, none started. -/
def semInit (n : Nat) : Nat × List WorkerPhase := (5, List.replicate n WorkerPhase.waiting)

/-- One row of the `documents` table joined (LEFT JOIN) with its
extraction row, as returned by `get_documents_with_extractions`
(src/database.py lines 589–636); `extracted_data` is `none` when the
document has no extraction row.  The store is assumed to hold at most one
extraction row per document, which is what the upload pipeline writes. -/
structure StoredDocument where
  id : Nat
  filename : String
  extracted_text : String
  detected_type : String
  detected_category : String
  extracted_data : Option String
  extraction_confidence : Option Rat
deriving DecidableEq

/-- The `ORDER BY d.detected_category, d.detected_type` key of the join
query, under SQLite BINARY collation. -/
def docSortLe (a b : StoredDocument) : Bool :=
  if a.detected_category = b.detected_category then
    charListLe a.detected_type.data b.detected_type.data
  else charListLe a.detected_category.data b.detected_category.data

/-- Insertion into a list sorted by `docSortLe`. -/
def insertSortedDoc (d : StoredDocument) : List StoredDocument → List StoredDocument
  | [] => [d]
  | u :: us => if docSortLe d u then d :: u :: us else u :: insertSortedDoc d us

/-- `get_documents_with_extractions(document_ids)` (src/database.py lines
589–636): an empty id list returns `[]` early, otherwise the selected rows
ordered by category then type. -/
def get_documents_with_extractions (store : List StoredDocument) (ids : List Nat) :
    List StoredDocument :=
  if ids.isEmpty then []
  else (store.filter (fun d => d.id ∈ ids)).foldr insertSortedDoc []

/-- One entry of the `all_extractions` list that
`_get_all_extractions_with_texts` assembles (src/services/
synthesis_generator.py lines 63–72). -/
structure ExtractionEntry where
  document_id : Nat
  filename : String
  detected_type : String
  detected_category : String
  extracted_data : Option String
deriving DecidableEq

/-- `SynthesisGenerator._get_all_extractions_with_texts` (src/services/
synthesis_generator.py lines 40–90).  With an empty id list the raw-text
query `WHERE id IN ()` is malformed SQL and sqlite3 raises; otherwise the
extraction entries are returned (the raw texts it also gathers only feed
the prompts handed to the section oracle and are not modelled
separately). -/
def get_all_extractions_with_texts (store : List StoredDocument) (ids : List Nat) :
    Except String (List ExtractionEntry) :=
  if ids.isEmpty then
    .error "sqlite3.OperationalError: incomplete input"
  else
    .ok ((get_documents_with_extractions store ids).map (fun d =>
      { document_id := d.id, filename := d.filename, detected_type := d.detected_type,
        detected_category := d.detected_category, extracted_data := d.extracted_data }))

/-- A generated section value: the model dump of one pydantic section
model, or the list of society dictionaries for the `societes` section. -/
inductive SectionData where
  | obj (fields : List (String × String))
  | items (rows : List (List (String × String)))
deriving DecidableEq

/-- Outcome of the per-section Inference call in `_generate_section`
(src/services/synthesis_generator.py lines 368–491): a parsed result or a
raised/parse-failed call. -/
inductive SectionOutcome where
  | ok (d : SectionData)
  | fail (msg : String)
deriving DecidableEq

/-- The required society fields of `_generate_section`\x27s validation loop
(src/services/synthesis_generator.py lines 426–428). -/
def societes_required_fields : List String :=
  ["raison_sociale", "forme_juridique", "pourcentage_detention", "chiffre_affaires_n1",
   "resultat_net_n1", "dettes_totales", "fonds_propres", "activite"]

/-- The validation loop over one society dictionary: every required field
that is absent or empty is set to the "Non spécifié" sentinel
(src/services/synthesis_generator.py lines 429–432). -/
def fill_required (row : List (String × String)) : List (String × String) :=
  (row.map (fun p =>
    if p.1 ∈ societes_required_fields ∧ p.2 = "" then (p.1, "Non spécifié") else p)) ++
  ((societes_required_fields.filter (fun f => row.all (fun p => p.1 ≠ f))).map
    (fun f => (f, "Non spécifié")))

/-- `SynthesisGenerator._generate_section` (src/services/
synthesis_generator.py lines 368–491).  For `societes` every failure is
swallowed into `[]` and results are validated with `fill_required`; for
every other section a failed Inference call falls into the `except`
handler, where `model_mapping[section]()` itself raises a pydantic
ValidationError because each section model has required fields without
defaults — that exception propagates to `generate_synthesis`. -/
def generate_section (s : String) (o : SectionOutcome) : Except String SectionData :=
  if s = "societes" then
    match o with
    | .ok (.items rows) => .ok (.items (rows.map fill_required))
    | .ok (.obj fields) => .ok (.items [fill_required fields])
    | .fail _ => .ok (.items [])
  else
    match o with
    | .ok d => .ok d
    | .fail _ => .error ("ValidationError: empty " ++ s ++ " model is missing required fields")

/-- The section names in generation order (src/services/
synthesis_generator.py lines 514–517). -/
def sections_order : List String :=
  ["synthese_projet", "profil_emprunteur", "revenus", "patrimoine_immobilier",
   "patrimoine_mobilier", "societes", "plan_financement", "analyse_financiere"]

/-- Generate the listed sections in order, stopping at the first raised
exception (the section loop of src/services/synthesis_generator.py lines
523–540 inside the surrounding `try`). -/
def generate_sections (oracle : String → SectionOutcome) :
    List String → Except String (List (String × SectionData))
  | [] => .ok []
  | s :: rest =>
    match generate_section s (oracle s) with
    | .error msg => .error msg
    | .ok d =>
      match generate_sections oracle rest with
      | .error msg => .error msg
      | .ok ds => .ok ((s, d) :: ds)

/-- Python `", ".join(...)`. -/
def joinComma : List String → String
  | [] => ""
  | [x] => x
  | x :: xs => x ++ ", " ++ joinComma xs

/-- The dictionary `generate_synthesis` returns (src/services/
synthesis_generator.py lines 561–576): a success result with the
assembled synthesis and its persisted confidence 0.85, or the failure
dictionary built by the `except` handler. -/
structure SynthesisOutcome where
  success : Bool
  dossier_id : Option String
  sections : Option (List (String × SectionData))
  documents_sources : Option String
  stored_confidence : Option Rat
  error : Option String
deriving DecidableEq

/-- `SynthesisGenerator.generate_synthesis` (src/services/
synthesis_generator.py lines 493–576): fetch the extraction entries,
generate all eight sections, stamp the dossier id and the source-document
list, and store the result with the fixed confidence 0.85.  Any exception
(the empty-id SQL error, or a failed non-societes section) is caught and
returned as a failure dictionary.  No check that any record carries an
extraction is performed anywhere.  `dossierId` stands for the
time-derived `_generate_dossier_id()` value. -/
def generate_synthesis (store : List StoredDocument) (ids : List Nat)
    (oracle : String → SectionOutcome) (dossierId : String) : SynthesisOutcome :=
  match get_all_extractions_with_texts store ids with
  | .error msg =>
    { success := false, dossier_id := none, sections := none, documents_sources := none,
      stored_confidence := none, error := some msg }
  | .ok entries =>
    match generate_sections oracle sections_order with
    | .error msg =>
      { success := false, dossier_id := none, sections := none, documents_sources := none,
        stored_confidence := none, error := some msg }
    | .ok secs =>
      { success := true, dossier_id := some dossierId, sections := some secs,
        documents_sources := some (joinComma (entries.map (fun e => e.filename))),
        stored_confidence := some (mkRat 17 20), error := none }

/-- Scoring of one catalog entry in the keyword fallback as claim C3 words
it (this definition follows the claim, not the source, and exists to be
compared with `fallback_classification`): the number of the entry\x27s
name words longer than 3 characters that appear verbatim in the
lower-cased text. -/
def fallback_spec_score (textLower : List Char) (name : String) : Nat :=
  ((words (lowerL name.data)).filter
    (fun kw => decide (kw.length > 3) && containsSub kw textLower)).length

/-- Is this character an ASCII digit? -/
def isDigitChar (c : Char) : Bool := decide ('0' ≤ c) && decide (c ≤ '9')

/-- Parse a non-empty all-digit character list as a natural number. -/
def digitsVal : List Char → Nat → Option Nat
  | [], acc => some acc
  | c :: cs, acc =>
    if isDigitChar c then digitsVal cs (acc * 10 + (c.toNat - '0'.toNat)) else none

/-- Parse digits, rejecting the empty list. -/
def parseNatDigits (l : List Char) : Option Nat :=
  if l.isEmpty then none else digitsVal l 0

/-- Split at the first comma, returning the part before it and, when a
comma is present, the part after it. -/
def splitAtComma (l : List Char) : List Char × Option (List Char) :=
  match l.span (fun c => c ≠ ',') with
  | (pre, []) => (pre, none)
  | (pre, _ :: post) => (pre, some post)

/-- Amount parsing as claim C5 words it (this definition follows the
claim, not the source — the source performs no amount parsing — and
exists to be compared with what `generate_synthesis` stores): strip the
euro marker and the thousands-separator spaces, read the digits before an
optional decimal comma and the fractional digits after it; any other
residual character makes the field non-numeric and it is skipped.  The
value is returned as a scaled pair `(n, k)` denoting `n / 10^k`, so that
the arithmetic stays in `Nat`. -/
def specParseAmountScaled (s : String) : Option (Nat × Nat) :=
  let cleaned := s.data.filter (fun c => decide (c ≠ '€') && decide (c ≠ ' '))
  match splitAtComma cleaned with
  | (intPart, none) => (parseNatDigits intPart).map (fun n => (n, 0))
  | (intPart, some fracPart) =>
    if fracPart.any (fun c => c = ',') then none
    else
      match parseNatDigits intPart, parseNatDigits fracPart with
      | some n, some f => some (n * 10 ^ fracPart.length + f, fracPart.length)
      | _, _ => none

/-- The rational denoted by a scaled amount. -/
def specAmountToRat (p : Nat × Nat) : Rat := mkRat p.1 (10 ^ p.2)

/-- Exact sum of two scaled amounts, in `Nat` arithmetic. -/
def specAmountAdd (a b : Nat × Nat) : Nat × Nat :=
  (a.1 * 10 ^ b.2 + b.1 * 10 ^ a.2, a.2 + b.2)

/-- The parsed amount of one field as a rational. -/
def specParseAmount (s : String) : Option Rat :=
  (specParseAmountScaled s).map specAmountToRat

/-- The movable-asset total as claim C5 words it: the arithmetic sum of
every parseable currency field, sentinels and non-numeric values skipped. -/
def spec_movable_asset_total (fields : List String) : Rat :=
  specAmountToRat ((fields.filterMap specParseAmountScaled).foldl specAmountAdd (0, 0))

/-- A successful `findSome?` witnesses a member of the list on which the
function succeeds. -/
theorem findSome?_mem {α β : Type} {f : α → Option β} {l : List α} {b : β}
    (h : l.findSome? f = some b) : ∃ a, a ∈ l ∧ f a = some b := by
  obtain ⟨l₁, a, l₂, rfl, hfa, -⟩ := List.findSome?_eq_some_iff.mp h
  exact ⟨a, by simp, hfa⟩

/-- Whatever the input, the keyword fallback returns one of the three
constant confidences 0.3, 0.2 and 0.1 of src/services/llm_classifier.py
lines 303, 314 and 324. -/
theorem fallback_classification_confidence (types : List String)
    (cats : List (String × String)) (text : String) :
    (fallback_classification types cats text).confidence = mkRat 3 10 ∨
    (fallback_classification types cats text).confidence = mkRat 1 5 ∨
    (fallback_classification types cats text).confidence = mkRat 1 10 := by
  simp only [fallback_classification]
  rcases h : List.findSome?
      (fun dt => Option.map (fun kw => (dt, kw)) (first_keyword_hit (lowerL text.data) dt))
      types with _ | p
  · rcases h2 : List.find? (fun dt => containsSub "autre".data (lowerL dt.data)) types
        with _ | dt
    · cases types with
      | nil => simp
      | cons t ts => simp [h, h2]
    · simp [h, h2]
  · obtain ⟨dt, kw⟩ := p
    simp [h]

/-- When the catalog is non-empty, the keyword fallback always answers
with a catalog member. -/
theorem fallback_classification_mem (types : List String) (cats : List (String × String))
    (text : String) (hne : types ≠ []) :
    (fallback_classification types cats text).document_type ∈ types := by
  simp only [fallback_classification]
  rcases h : List.findSome?
      (fun dt => Option.map (fun kw => (dt, kw)) (first_keyword_hit (lowerL text.data) dt))
      types with _ | p
  · rcases h2 : List.find? (fun dt => containsSub "autre".data (lowerL dt.data)) types
        with _ | dt
    · cases types with
      | nil => exact absurd rfl hne
      | cons t ts => simp [h, h2]
    · have hdt := List.mem_of_find?_eq_some h2
      simp [h, h2, hdt]
  · obtain ⟨dt, kw⟩ := p
    obtain ⟨a, ha, hfa⟩ := findSome?_mem h
    rcases hk : first_keyword_hit (lowerL text.data) a with _ | kw'
    · rw [hk] at hfa; simp at hfa
    · rw [hk] at hfa
      simp only [Option.map_some'] at hfa
      have hadt : a = dt := congrArg Prod.fst (Option.some.inj hfa)
      rw [hadt] at ha
      simp [h, ha]

/-- Pydantic validation only succeeds on confidences inside [0, 1]. -/
theorem parse_classification_bounds (raw : RawClassification) (dc : DocumentClassification)
    (h : parse_document_classification raw = .ok dc) :
    0 ≤ dc.confidence ∧ dc.confidence ≤ 1 := by
  unfold parse_document_classification at h
  split at h
  · rename_i hb
    cases h
    exact hb
  · exact absurd h (by simp)

/-- A classification accepted by the strict reclassification passed
pydantic validation, so its confidence is inside [0, 1]. -/
theorem strict_reclassification_bounds (types : List String) (avail : Bool)
    (retryCall : InferCall) (dc : DocumentClassification)
    (h : strict_validation_and_reclassification types avail retryCall = some dc) :
    0 ≤ dc.confidence ∧ dc.confidence ≤ 1 := by
  unfold strict_validation_and_reclassification at h
  by_cases ha : avail = false
  · rw [if_pos ha] at h
    exact absurd h (by simp)
  · rw [if_neg ha] at h
    cases retryCall with
    | raiseExc msg => exact absurd h (by simp)
    | output raw =>
      have h' : (match parse_document_classification raw with
          | .error _ => none
          | .ok dc => if dc.document_type ∈ types then some dc else none) = some dc := h
      rcases hp : parse_document_classification raw with msg' | dc'
      · rw [hp] at h'
        exact absurd h' (by simp)
      · rw [hp] at h'
        have h2 : (if dc'.document_type ∈ types then some dc' else none) = some dc := h'
        by_cases hmem : dc'.document_type ∈ types
        · rw [if_pos hmem] at h2
          cases h2
          exact parse_classification_bounds raw _ hp
        · rw [if_neg hmem] at h2
          exact absurd h2 (by simp)

/-- Claim C1 (code bug): when Inference returns the catalog member
"Compromis de vente" with the bogus category "Bogus", `classify_document`
returns the classification unchanged — the category stays "Bogus" even
though the catalog registers "Object" for this type.  The category
overwrite described by the spec exists only inside
`_validate_and_correct_result`, which no code path ever calls. -/
theorem classify_keeps_inference_category :
    classify_document documentTypes categoriesMap "extrait kbis" true
        (.output ⟨"Compromis de vente", "Bogus", mkRat 7 10, "r"⟩) (.raiseExc "unused") =
      { success := true,
        classification := ⟨"Compromis de vente", "Bogus", mkRat 7 10, "r"⟩,
        error_message := none } ∧
    "Compromis de vente" ∈ documentTypes ∧
    categories_get categoriesMap "Compromis de vente" = "Object" ∧
    ("Bogus" : String) ≠ "Object" ∧
    (validate_and_correct_result documentTypes categoriesMap
        ⟨"Compromis de vente", "Bogus", mkRat 7 10, "r"⟩).category = "Object" := by
  decide

/-- Claim C2 (code bug): when Inference returns "Facture EDF", a name
absent from the catalog, and the strict reclassification retry raises,
`classify_document` returns success with documentType "Facture EDF" —
not a catalog member.  The claimed total repair lives in
`_find_closest_match` (which here would have returned the catalog member
"Autre"), but `classify_document` never calls it. -/
theorem classify_returns_noncatalog_type :
    classify_document documentTypes categoriesMap "facture" true
        (.output ⟨"Facture EDF", "X", mkRat 1 2, "r"⟩) (.raiseExc "panne") =
      { success := true,
        classification := ⟨"Facture EDF", "X", mkRat 1 2, "r"⟩,
        error_message := none } ∧
    "Facture EDF" ∉ documentTypes ∧
    find_closest_match documentTypes "Facture EDF" = "Autre" ∧
    "Autre" ∈ documentTypes := by
  decide

/-- Claim C3 counterexample: on the text "compromis de vente signé" with a
raised Inference call, the keyword fallback picks "Compromis de vente" —
the unique highest-scoring entry, whose two name words longer than 3
characters ("compromis", "vente") both occur in the text, so the claim
prescribes confidence min(2/5, 0.8) = 0.4 — but the code stores the fixed
confidence 0.3.  The claimed formula `min(score/5, 0.8)` therefore does
not hold. -/
theorem fallback_confidence_not_score_based :
    (classify_document documentTypes categoriesMap "compromis de vente signé" true
        (.raiseExc "LLM indisponible") (.raiseExc "unused")).success = false ∧
    (classify_document documentTypes categoriesMap "compromis de vente signé" true
        (.raiseExc "LLM indisponible") (.raiseExc "unused")).error_message =
      some "LLM indisponible" ∧
    (classify_document documentTypes categoriesMap "compromis de vente signé" true
        (.raiseExc "LLM indisponible") (.raiseExc "unused")).classification.document_type =
      "Compromis de vente" ∧
    (classify_document documentTypes categoriesMap "compromis de vente signé" true
        (.raiseExc "LLM indisponible") (.raiseExc "unused")).classification.confidence = mkRat 3 10 ∧
    fallback_spec_score (lowerL "compromis de vente signé".data) "Compromis de vente" = 2 ∧
    (∀ dt ∈ documentTypes,
      fallback_spec_score (lowerL "compromis de vente signé".data) dt ≤ 2) ∧
    min (mkRat 2 5) (mkRat 8 10) = mkRat 2 5 ∧
    mkRat 3 10 ≠ mkRat 2 5 := by
  decide

/-- Claim C6 counterexample: when Inference reports the out-of-range
confidence 1.5 for "Compromis de vente", pydantic validation of
`DocumentClassification` fails, the classification falls back to the
keyword path, and the stored confidence is 0.3 — not the 0.5 the claim
says it is reset to (that reset sits in the never-called
`_validate_and_correct_result`). -/
theorem out_of_range_confidence_not_half :
    (classify_document documentTypes categoriesMap "compromis de vente" true
        (.output ⟨"Compromis de vente", "Object", mkRat 3 2, "sûr"⟩) (.raiseExc "unused")).success =
      false ∧
    (classify_document documentTypes categoriesMap "compromis de vente" true
        (.output ⟨"Compromis de vente", "Object", mkRat 3 2, "sûr"⟩)
        (.raiseExc "unused")).classification.confidence = mkRat 3 10 ∧
    (1 : Rat) < mkRat 3 2 ∧
    mkRat 3 10 ≠ mkRat 1 2 := by
  decide

/-- Claim C3 amended: when the Inference call raises, `classify_document`
never raises and returns `success = false` with the triggering error
recorded, and its classification is the keyword fallback, which scans the
catalog in order and returns the first entry one of whose name words
longer than 3 characters occurs in the lower-cased text at the fixed
confidence 0.3 (not the highest-scoring entry at `min(score/5, 0.8)`);
with no match it returns the first "autre" entry at 0.2, else the first
catalog entry at 0.1 — so the result is always a catalog member and the
confidence is one of these three constants. -/
theorem classify_fallback_first_match (types : List String) (cats : List (String × String))
    (text msg : String) (retryCall : InferCall) (hne : types ≠ []) :
    (classify_document types cats text true (.raiseExc msg) retryCall).success = false ∧
    (classify_document types cats text true (.raiseExc msg) retryCall).error_message = some msg ∧
    (classify_document types cats text true (.raiseExc msg) retryCall).classification =
      fallback_classification types cats text ∧
    (fallback_classification types cats text).document_type ∈ types ∧
    ((fallback_classification types cats text).confidence = mkRat 3 10 ∨
     (fallback_classification types cats text).confidence = mkRat 1 5 ∨
     (fallback_classification types cats text).confidence = mkRat 1 10) :=
  ⟨rfl, rfl, rfl, fallback_classification_mem types cats text hne,
    fallback_classification_confidence types cats text⟩

/-- Witness for the amended claim C3, at the real catalog and the text
"bilan de la société" with a raised Inference call. -/
theorem classify_fallback_first_match_witness :
    documentTypes ≠ [] ∧
    ((classify_document documentTypes categoriesMap "bilan de la société" true
        (.raiseExc "panne") (.raiseExc "x")).success = false ∧
     (classify_document documentTypes categoriesMap "bilan de la société" true
        (.raiseExc "panne") (.raiseExc "x")).error_message = some "panne" ∧
     (classify_document documentTypes categoriesMap "bilan de la société" true
        (.raiseExc "panne") (.raiseExc "x")).classification =
       fallback_classification documentTypes categoriesMap "bilan de la société" ∧
     (fallback_classification documentTypes categoriesMap "bilan de la société").document_type ∈
       documentTypes ∧
     ((fallback_classification documentTypes categoriesMap "bilan de la société").confidence =
        mkRat 3 10 ∨
      (fallback_classification documentTypes categoriesMap "bilan de la société").confidence =
        mkRat 1 5 ∨
      (fallback_classification documentTypes categoriesMap "bilan de la société").confidence =
        mkRat 1 10)) :=
  ⟨by decide, classify_fallback_first_match documentTypes categoriesMap "bilan de la société"
    "panne" (.raiseExc "x") (by decide)⟩

/-- Claim C6 amended: the confidence stored in any classification result
always lies inside [0, 1]; and whenever Inference reports a confidence
outside [0, 1], pydantic validation of `DocumentClassification` fails, so
the attempt is routed to the keyword fallback (whose confidence is 0.3,
0.2 or 0.1) with `success = false` — never reset to 0.5, since the 0.5
reset only exists in the uncalled `_validate_and_correct_result`. -/
theorem classification_confidence_in_range (types : List String) (cats : List (String × String))
    (text : String) (avail : Bool) (call retryCall : InferCall) :
    (0 ≤ (classify_document types cats text avail call retryCall).classification.confidence ∧
     (classify_document types cats text avail call retryCall).classification.confidence ≤ 1) ∧
    (∀ raw : RawClassification, call = .output raw →
      ¬ (0 ≤ raw.confidence ∧ raw.confidence ≤ 1) →
      (classify_document types cats text avail call retryCall).success = false ∧
      (classify_document types cats text avail call retryCall).classification =
        fallback_classification types cats text) := by
  have hfb : 0 ≤ (fallback_classification types cats text).confidence ∧
      (fallback_classification types cats text).confidence ≤ 1 := by
    rcases fallback_classification_confidence types cats text with h | h | h <;> rw [h] <;>
      exact ⟨by decide, by decide⟩
  by_cases ha : avail = false
  · refine ⟨by simp [classify_document, ha, hfb.1, hfb.2], ?_⟩
    intro raw hcall hnb
    simp [classify_document, ha]
  · have ht : avail = true := by revert ha; cases avail <;> simp
    subst ht
    cases call with
    | raiseExc msg =>
      refine ⟨by simp [classify_document, hfb.1, hfb.2], ?_⟩
      intro raw hcall hnb
      cases hcall
    | output raw' =>
      rcases hp : parse_document_classification raw' with msg' | dc'
      · refine ⟨by simp [classify_document, hp, hfb.1, hfb.2], ?_⟩
        intro raw hcall hnb
        cases hcall
        simp [classify_document, hp]
      · have hb := parse_classification_bounds raw' dc' hp
        constructor
        · by_cases hcond : (dc'.document_type ∉ types ∨
              containsSub "autre".data (lowerL dc'.document_type.data) = true)
          · rcases hs : strict_validation_and_reclassification types true retryCall
                with _ | improved
            · simpa [classify_document, hp, hcond, hs] using hb
            · have hib := strict_reclassification_bounds types true retryCall improved hs
              simpa [classify_document, hp, hcond, hs] using hib
          · simpa [classify_document, hp, hcond] using hb
        · intro raw hcall hnb
          have hr : raw' = raw := by injection hcall
          rw [← hr] at hnb
          refine absurd ?_ hnb
          have hpp := hp
          unfold parse_document_classification at hpp
          by_cases hg : 0 ≤ raw'.confidence ∧ raw'.confidence ≤ 1
          · exact hg
          · rw [if_neg hg] at hpp
            exact absurd hpp (by simp)

/-- Witness for the amended claim C6, at the real catalog with an
Inference reply claiming confidence 2.0. -/
theorem classification_confidence_in_range_witness :
    (0 ≤ (classify_document documentTypes categoriesMap "avis" true
        (.output ⟨"Avis d\x27imposition N - 1", "Revenus", mkRat 2 1, "r"⟩)
        (.raiseExc "x")).classification.confidence ∧
     (classify_document documentTypes categoriesMap "avis" true
        (.output ⟨"Avis d\x27imposition N - 1", "Revenus", mkRat 2 1, "r"⟩)
        (.raiseExc "x")).classification.confidence ≤ 1) ∧
    (InferCall.output (⟨"Avis d\x27imposition N - 1", "Revenus", mkRat 2 1, "r"⟩ :
        RawClassification) =
      .output ⟨"Avis d\x27imposition N - 1", "Revenus", mkRat 2 1, "r"⟩) ∧
    ¬ (0 ≤ (mkRat 2 1) ∧ (mkRat 2 1) ≤ 1) ∧
    (classify_document documentTypes categoriesMap "avis" true
        (.output ⟨"Avis d\x27imposition N - 1", "Revenus", mkRat 2 1, "r"⟩)
        (.raiseExc "x")).success = false ∧
    (classify_document documentTypes categoriesMap "avis" true
        (.output ⟨"Avis d\x27imposition N - 1", "Revenus", mkRat 2 1, "r"⟩)
        (.raiseExc "x")).classification =
      fallback_classification documentTypes categoriesMap "avis" := by
  have h := (classification_confidence_in_range documentTypes categoriesMap "avis" true
      (.output ⟨"Avis d\x27imposition N - 1", "Revenus", mkRat 2 1, "r"⟩) (.raiseExc "x"))
  have h2 := h.2 ⟨"Avis d\x27imposition N - 1", "Revenus", mkRat 2 1, "r"⟩ rfl (by decide)
  exact ⟨h.1, rfl, by decide, h2.1, h2.2⟩

/-- Claim C7: when the extraction LLM is uninitialised or the Inference
call raises, `extract_document_data` surfaces the failure verbatim —
`success = false`, no extracted data, confidence 0, cause recorded — and
never fabricates data or runs a fallback; on success the confidence is
the fixed constant 0.9. -/
theorem extraction_failure_surfaced (cats : List (String × String)) (dt msg : String)
    (fields : List (String × String)) :
    extract_document_data cats true dt (.raiseExc msg) =
      { success := false, extracted_data := none,
        error := some ("Extraction échouée: " ++ msg), confidence := 0 } ∧
    extract_document_data cats false dt (.raiseExc msg) =
      { success := false, extracted_data := none, error := some "LLM non initialisé",
        confidence := 0 } ∧
    (extract_document_data cats true dt (.output fields)).success = true ∧
    (extract_document_data cats true dt (.output fields)).confidence = mkRat 9 10 ∧
    (extract_document_data cats true dt (.output fields)).extracted_data =
      some { document_type := dt, category := categories_get cats dt,
             extracted_fields := fields, confidence := mkRat 9 10 } :=
  ⟨rfl, rfl, rfl, rfl, rfl⟩

/-- A section whose Inference call succeeds always generates successfully
(the societes post-processing cannot fail either). -/
theorem generate_section_ok (s : String) (d : SectionData) :
    ∃ d', generate_section s (.ok d) = .ok d' := by
  unfold generate_section
  by_cases hs : s = "societes"
  · rw [if_pos hs]
    cases d with
    | obj fields => exact ⟨_, rfl⟩
    | items rows => exact ⟨_, rfl⟩
  · rw [if_neg hs]
    exact ⟨d, rfl⟩

/-- When every listed section\x27s Inference call succeeds, the section loop
succeeds. -/
theorem generate_sections_ok (oracle : String → SectionOutcome) :
    ∀ l : List String, (∀ s ∈ l, ∃ d, oracle s = .ok d) →
      ∃ ds, generate_sections oracle l = .ok ds := by
  intro l
  induction l with
  | nil => intro _; exact ⟨[], rfl⟩
  | cons s rest ih =>
    intro h
    obtain ⟨d, hd⟩ := h s (List.mem_cons_self s rest)
    obtain ⟨d', hd'⟩ := generate_section_ok s d
    obtain ⟨ds, hds⟩ := ih (fun t ht => h t (List.mem_cons_of_mem s ht))
    refine ⟨(s, d') :: ds, ?_⟩
    simp [generate_sections, hd, hd', hds]

/-- The value stored for a non-societes section is exactly the Inference
reply for that section: in a successful section loop, looking the section
up returns the oracle\x27s data unchanged. -/
theorem generate_sections_find (oracle : String → SectionOutcome) (target : String)
    (d : SectionData) (htS : target ≠ "societes") (hd : oracle target = .ok d) :
    ∀ l : List String, (∀ s ∈ l, ∃ x, oracle s = .ok x) → target ∈ l →
      ∃ ds, generate_sections oracle l = .ok ds ∧
        ds.find? (fun p => decide (p.1 = target)) = some (target, d) := by
  intro l
  induction l with
  | nil => intro _ ht; cases ht
  | cons s rest ih =>
    intro h ht
    by_cases hst : s = target
    · subst hst
      have hgen : generate_section s (.ok d) = .ok d := by
        unfold generate_section
        rw [if_neg htS]
      obtain ⟨ds, hds⟩ :=
        generate_sections_ok oracle rest (fun t ht' => h t (List.mem_cons_of_mem s ht'))
      refine ⟨(s, d) :: ds, ?_, ?_⟩
      · simp [generate_sections, hd, hgen, hds]
      · simp [List.find?]
    · have ht' : target ∈ rest := by
        rcases List.mem_cons.mp ht with h1 | h1
        · exact absurd h1.symm hst
        · exact h1
      obtain ⟨x, hx⟩ := h s (List.mem_cons_self s rest)
      obtain ⟨x', hx'⟩ := generate_section_ok s x
      obtain ⟨ds, hds, hfind⟩ := ih (fun t htt => h t (List.mem_cons_of_mem s htt)) ht'
      refine ⟨(s, x') :: ds, ?_, ?_⟩
      · simp [generate_sections, hx, hx', hds]
      · rw [List.find?_cons_of_neg _ (by simp [hst]), hfind]

/-- Claim C4 counterexample: a one-document input set whose single record
has no extraction (extracted_data is NULL) still produces a synthesis
profile — `generate_synthesis` succeeds with all eight sections and
stores the fixed confidence 0.85; no NoUsableInput failure exists. -/
theorem profile_without_any_extraction :
    (∀ d ∈ ([⟨1, "releve.pdf", "texte brut", "Autre", "Object", none, none⟩] :
        List StoredDocument), d.extracted_data = none) ∧
    (generate_synthesis [⟨1, "releve.pdf", "texte brut", "Autre", "Object", none, none⟩] [1]
        (fun s => if s = "societes" then .ok (.items []) else .ok (.obj [("champ", "valeur")]))
        "DOSS-1").success = true ∧
    (generate_synthesis [⟨1, "releve.pdf", "texte brut", "Autre", "Object", none, none⟩] [1]
        (fun s => if s = "societes" then .ok (.items []) else .ok (.obj [("champ", "valeur")]))
        "DOSS-1").sections.isSome = true ∧
    (generate_synthesis [⟨1, "releve.pdf", "texte brut", "Autre", "Object", none, none⟩] [1]
        (fun s => if s = "societes" then .ok (.items []) else .ok (.obj [("champ", "valeur")]))
        "DOSS-1").error = none ∧
    (generate_synthesis [⟨1, "releve.pdf", "texte brut", "Autre", "Object", none, none⟩] [1]
        (fun s => if s = "societes" then .ok (.items []) else .ok (.obj [("champ", "valeur")]))
        "DOSS-1").stored_confidence = some (mkRat 17 20) := by
  decide

/-- Claim C4 amended: `generate_synthesis` performs no usable-input check.
For any non-empty id list, a profile is produced whenever every section
generation succeeds — regardless of whether any selected record carries an
extraction, and even when the store holds no matching document at all. -/
theorem generate_synthesis_total_when_sections_ok (store : List StoredDocument)
    (ids : List Nat) (oracle : String → SectionOutcome) (did : String)
    (hne : ids ≠ []) (hok : ∀ s ∈ sections_order, ∃ d, oracle s = .ok d) :
    (generate_synthesis store ids oracle did).success = true ∧
    (generate_synthesis store ids oracle did).sections.isSome = true ∧
    (generate_synthesis store ids oracle did).error = none := by
  have hemp : ids.isEmpty = false := by
    cases ids with
    | nil => exact absurd rfl hne
    | cons a l => rfl
  obtain ⟨ds, hds⟩ := generate_sections_ok oracle sections_order hok
  simp [generate_synthesis, get_all_extractions_with_texts, hemp, hds]

/-- Witness for the amended claim C4: an empty store with id list [1] and
an all-succeeding section oracle yields a successful profile. -/
theorem generate_synthesis_total_when_sections_ok_witness :
    (([1] : List Nat) ≠ []) ∧
    (∀ s ∈ sections_order, ∃ d,
      (fun _ : String => SectionOutcome.ok (.obj [])) s = .ok d) ∧
    ((generate_synthesis [] [1] (fun _ => .ok (.obj [])) "DOSS-W").success = true ∧
     (generate_synthesis [] [1] (fun _ => .ok (.obj [])) "DOSS-W").sections.isSome = true ∧
     (generate_synthesis [] [1] (fun _ => .ok (.obj [])) "DOSS-W").error = none) :=
  ⟨by decide, fun _ _ => ⟨.obj [], rfl⟩,
    generate_synthesis_total_when_sections_ok [] [1] (fun _ => .ok (.obj [])) "DOSS-W"
      (by decide) (fun _ _ => ⟨.obj [], rfl⟩)⟩

/-- Claim C5 counterexample: the spec\x27s own parsing of the fields
["12 500 €", "not specified", "3 200,50 €"] sums to 15700.50, but the
aggregator performs no such computation — the stored patrimoine_mobilier
section is exactly the Inference reply, here carrying the total "0 €",
which denotes 0 ≠ 15700.50. -/
theorem movable_total_is_oracle_output_not_sum :
    spec_movable_asset_total ["12 500 €", "not specified", "3 200,50 €"] = mkRat 31401 2 ∧
    (generate_synthesis
        [⟨1, "epargne.pdf", "Relevé: 12 500 €; not specified; 3 200,50 €",
          "Dernier relevé d\x27épargne", "Banque et épargne",
          some "12 500 € | not specified | 3 200,50 €", some (mkRat 9 10)⟩] [1]
        (fun s => if s = "patrimoine_mobilier" then
            .ok (.obj [("comptes_bancaires", "12 500 €"), ("epargne_financiere", "3 200,50 €"),
                       ("patrimoine_mobilier_total", "0 €")])
          else if s = "societes" then .ok (.items []) else .ok (.obj []))
        "DOSS-2").success = true ∧
    ((generate_synthesis
        [⟨1, "epargne.pdf", "Relevé: 12 500 €; not specified; 3 200,50 €",
          "Dernier relevé d\x27épargne", "Banque et épargne",
          some "12 500 € | not specified | 3 200,50 €", some (mkRat 9 10)⟩] [1]
        (fun s => if s = "patrimoine_mobilier" then
            .ok (.obj [("comptes_bancaires", "12 500 €"), ("epargne_financiere", "3 200,50 €"),
                       ("patrimoine_mobilier_total", "0 €")])
          else if s = "societes" then .ok (.items []) else .ok (.obj []))
        "DOSS-2").sections.getD []).find? (fun p => decide (p.1 = "patrimoine_mobilier")) =
      some ("patrimoine_mobilier",
        .obj [("comptes_bancaires", "12 500 €"), ("epargne_financiere", "3 200,50 €"),
              ("patrimoine_mobilier_total", "0 €")]) ∧
    specParseAmount "0 €" = some (mkRat 0 1) ∧
    mkRat 0 1 ≠ mkRat 31401 2 := by
  decide

/-- Claim C5 amended: the patrimoine_mobilier section of a successful
synthesis, including its `patrimoine_mobilier_total` field, is the
Inference reply for that section verbatim — the aggregator performs no
currency parsing and no arithmetic summation over the bucket\x27s fields. -/
theorem patrimoine_mobilier_section_is_inference_output (store : List StoredDocument)
    (ids : List Nat) (oracle : String → SectionOutcome) (did : String) (d : SectionData)
    (hne : ids ≠ []) (hok : ∀ s ∈ sections_order, ∃ x, oracle s = .ok x)
    (hpm : oracle "patrimoine_mobilier" = .ok d) :
    ∃ secs, (generate_synthesis store ids oracle did).sections = some secs ∧
      secs.find? (fun p => decide (p.1 = "patrimoine_mobilier")) =
        some ("patrimoine_mobilier", d) := by
  have hemp : ids.isEmpty = false := by
    cases ids with
    | nil => exact absurd rfl hne
    | cons a l => rfl
  obtain ⟨ds, hds, hfind⟩ := generate_sections_find oracle "patrimoine_mobilier" d
    (by decide) hpm sections_order hok (by decide)
  refine ⟨ds, ?_, hfind⟩
  simp [generate_synthesis, get_all_extractions_with_texts, hemp, hds]

/-- Witness for the amended claim C5, with an oracle answering a concrete
patrimoine_mobilier section over an empty store. -/
theorem patrimoine_mobilier_section_is_inference_output_witness :
    (([7] : List Nat) ≠ []) ∧
    (∀ s ∈ sections_order, ∃ x,
      (fun t : String => if t = "patrimoine_mobilier" then
          SectionOutcome.ok (.obj [("patrimoine_mobilier_total", "42 €")])
        else SectionOutcome.ok (.obj [])) s = .ok x) ∧
    ((fun t : String => if t = "patrimoine_mobilier" then
          SectionOutcome.ok (.obj [("patrimoine_mobilier_total", "42 €")])
        else SectionOutcome.ok (.obj [])) "patrimoine_mobilier" =
      .ok (.obj [("patrimoine_mobilier_total", "42 €")])) ∧
    (∃ secs, (generate_synthesis [] [7]
        (fun t : String => if t = "patrimoine_mobilier" then
            SectionOutcome.ok (.obj [("patrimoine_mobilier_total", "42 €")])
          else SectionOutcome.ok (.obj [])) "DOSS-V").sections = some secs ∧
      secs.find? (fun p => decide (p.1 = "patrimoine_mobilier")) =
        some ("patrimoine_mobilier", .obj [("patrimoine_mobilier_total", "42 €")])) :=
  ⟨by decide, fun s _ => by by_cases h : s = "patrimoine_mobilier" <;> simp [h],
    by decide,
    patrimoine_mobilier_section_is_inference_output [] [7] _ "DOSS-V"
      (.obj [("patrimoine_mobilier_total", "42 €")]) (by decide)
      (fun s _ => by by_cases h : s = "patrimoine_mobilier" <;> simp [h]) (by decide)⟩

/-- Looking an index up in a completion stream of (index, value) pairs
returns that index\x27s value, whenever the index occurs in the stream. -/
theorem find?_map_key {β : Type} (f : Nat → β) :
    ∀ (order : List Nat) (i : Nat), i ∈ order →
      (order.map (fun j => (j, f j))).find? (fun p => decide (p.1 = i)) = some (i, f i) := by
  intro order
  induction order with
  | nil => intro i hi; cases hi
  | cons j rest ih =>
    intro i hi
    by_cases hji : j = i
    · subst hji
      simp [List.find?]
    · have hi' : i ∈ rest := by
        rcases List.mem_cons.mp hi with h1 | h1
        · exact absurd h1.symm hji
        · exact h1
      simp only [List.map_cons]
      rw [List.find?_cons_of_neg _ (by simp [hji])]
      exact ih i hi'

/-- `getD` of an in-range index is the indexed element. -/
theorem getD_of_lt {α : Type} (l : List α) (i : Nat) (d : α) (h : i < l.length) :
    l.getD i d = l[i] := by
  simp [List.getD_eq_getElem?_getD, List.getElem?_eq_getElem h]

/-- Gathering a completion stream that mentions every index below `n`
re-assembles the per-index results in index order: the completion order is
irrelevant. -/
theorem gather_results_spec (n : Nat) (f : Nat → Except String FileOutcome)
    (order : List Nat) (hmem : ∀ i, i < n → i ∈ order) :
    gather_results n (order.map (fun j => (j, f j))) = (List.range n).map f := by
  unfold gather_results
  apply List.map_congr_left
  intro i hi
  rw [find?_map_key f order i (hmem i (List.mem_range.mp hi))]

/-- Claim C8: for any batch and any completion order that eventually
completes every task, `process_multiple_files` returns exactly one
outcome per input file, and the outcome at position `i` is a total
function of document `i`\x27s own file and task alone — so outcomes follow
the input order regardless of completion order, one document\x27s exception
(task-level or in-pipeline) only turns into that document\x27s failure
outcome, and the batch operation, being a total function, never raises. -/
theorem process_multiple_files_outcomes (files : List UploadFile)
    (tasks : List (Except String PipelineEvent)) (order : List Nat)
    (hcomplete : ∀ i, i < files.length → i ∈ order) :
    (process_multiple_files files tasks order).length = files.length ∧
    ∀ i, i < files.length →
      (process_multiple_files files tasks order).getD i default =
        clean_result (files.getD i default)
          (run_task (files.getD i default) (tasks.getD i (.error "task missing"))) := by
  have hg : gather_results files.length (completions files tasks order) =
      (List.range files.length).map
        (fun i => run_task (files.getD i default) (tasks.getD i (.error "task missing"))) :=
    gather_results_spec files.length _ order hcomplete
  have hlen : (process_multiple_files files tasks order).length = files.length := by
    simp [process_multiple_files, hg]
  refine ⟨hlen, ?_⟩
  intro i hi
  have hi' : i < (process_multiple_files files tasks order).length := by rw [hlen]; exact hi
  rw [getD_of_lt _ _ _ hi', getD_of_lt files i default hi]
  unfold process_multiple_files
  simp only [hg, List.getElem_map, List.getElem_zip, List.getElem_range]
  rw [getD_of_lt files i default hi]

/-- Witness for claim C8: three files, completion order [2, 0, 1], the
middle task failing at task level; every outcome sits at its input
position. -/
theorem process_multiple_files_outcomes_witness :
    (∀ i, i < ([⟨"a.pdf", some 10⟩, ⟨"b.exe", some 10⟩, ⟨"c.pdf", none⟩] :
        List UploadFile).length → i ∈ [2, 0, 1]) ∧
    ((process_multiple_files [⟨"a.pdf", some 10⟩, ⟨"b.exe", some 10⟩, ⟨"c.pdf", none⟩]
        [.ok (.completes 11), .error "cancelled", .ok (.raises "OCR down")] [2, 0, 1]).length =
      ([⟨"a.pdf", some 10⟩, ⟨"b.exe", some 10⟩, ⟨"c.pdf", none⟩] : List UploadFile).length ∧
     ∀ i, i < ([⟨"a.pdf", some 10⟩, ⟨"b.exe", some 10⟩, ⟨"c.pdf", none⟩] :
        List UploadFile).length →
      (process_multiple_files [⟨"a.pdf", some 10⟩, ⟨"b.exe", some 10⟩, ⟨"c.pdf", none⟩]
          [.ok (.completes 11), .error "cancelled", .ok (.raises "OCR down")] [2, 0, 1]).getD
          i default =
        clean_result (([⟨"a.pdf", some 10⟩, ⟨"b.exe", some 10⟩, ⟨"c.pdf", none⟩] :
            List UploadFile).getD i default)
          (run_task (([⟨"a.pdf", some 10⟩, ⟨"b.exe", some 10⟩, ⟨"c.pdf", none⟩] :
              List UploadFile).getD i default)
            (([.ok (.completes 11), .error "cancelled", .ok (.raises "OCR down")] :
              List (Except String PipelineEvent)).getD i (.error "task missing")))) :=
  ⟨by decide,
    process_multiple_files_outcomes [⟨"a.pdf", some 10⟩, ⟨"b.exe", some 10⟩, ⟨"c.pdf", none⟩]
      [.ok (.completes 11), .error "cancelled", .ok (.raises "OCR down")] [2, 0, 1] (by decide)⟩

/-- Setting a waiting worker to running increments the running count. -/
theorem countRunning_set_acquire : ∀ (phases : List WorkerPhase) (i : Nat),
    phases.getD i .done = .waiting →
    countRunning (phases.set i .running) = countRunning phases + 1 := by
  intro phases
  induction phases with
  | nil =>
    intro i h
    simp [List.getD] at h
  | cons p ps ih =>
    intro i h
    cases i with
    | zero =>
      have hp : p = .waiting := by simpa [List.getD] using h
      subst hp
      simp [countRunning, List.set]
      omega
    | succ n =>
      have h' : ps.getD n .done = .waiting := by simpa [List.getD] using h
      simp only [List.set, countRunning, ih n h']
      omega

/-- Setting a running worker to done decrements the running count. -/
theorem countRunning_set_release : ∀ (phases : List WorkerPhase) (i : Nat),
    phases.getD i .done = .running →
    countRunning (phases.set i .done) + 1 = countRunning phases := by
  intro phases
  induction phases with
  | nil =>
    intro i h
    simp [List.getD] at h
  | cons p ps ih =>
    intro i h
    cases i with
    | zero =>
      have hp : p = .running := by simpa [List.getD] using h
      subst hp
      simp [countRunning, List.set]
      omega
    | succ n =>
      have h' : ps.getD n .done = .running := by simpa [List.getD] using h
      have := ih n h'
      simp only [List.set, countRunning]
      omega

/-- One semaphore step preserves the permit accounting: free permits plus
running workers always total the semaphore width 5. -/
theorem semStep_invariant {s t : Nat × List WorkerPhase} (h : SemStep s t)
    (hinv : s.1 + countRunning s.2 = 5) : t.1 + countRunning t.2 = 5 := by
  cases h with
  | acquire permits phases i hw hp =>
    have hc := countRunning_set_acquire phases i hw
    simp only [] at hinv ⊢
    rw [hc]
    omega
  | release permits phases i hr =>
    have hc := countRunning_set_release phases i hr
    simp only [] at hinv ⊢
    omega

/-- Claim C9: in every state the batch scheduler can reach from 50 queued
documents behind `asyncio.Semaphore(5)`, at most 5 workers hold the
external-call slot at the same instant.  The proof carries the inductive
invariant that free permits plus running workers equal 5. -/
theorem concurrency_bound (s : Nat × List WorkerPhase)
    (h : Relation.ReflTransGen SemStep (semInit 50) s) :
    countRunning s.2 ≤ 5 := by
  have hinv : s.1 + countRunning s.2 = 5 := by
    induction h with
    | refl => decide
    | tail hsteps hstep ih => exact semStep_invariant hstep ih
  omega

/-- Witness for claim C9: after the first worker acquires the semaphore,
one worker is running, within the bound. -/
theorem concurrency_bound_witness :
    countRunning ((List.replicate 50 WorkerPhase.waiting).set 0 .running) ≤ 5 :=
  concurrency_bound (4, (List.replicate 50 WorkerPhase.waiting).set 0 .running)
    (Relation.ReflTransGen.single
      (SemStep.acquire 5 (List.replicate 50 WorkerPhase.waiting) 0 (by decide) (by decide)))

/-- Claim C10: a request with more than 50 files is rejected with HTTP 400
before any per-document work — the response does not depend on the
per-document task oracles at all; a request with at most 50 files proceeds
to `process_multiple_files`. -/
theorem upload_limit_50 (files : List UploadFile)
    (tasks tasks' : List (Except String PipelineEvent)) (order order' : List Nat) :
    (files.length > 50 →
      upload_multiple_documents files tasks order =
        .httpError 400 "Maximum 50 fichiers autorisés par requête" ∧
      upload_multiple_documents files tasks order =
        upload_multiple_documents files tasks' order') ∧
    (files.length ≤ 50 →
      upload_multiple_documents files tasks order =
        .batch (process_multiple_files files tasks order)) := by
  constructor
  · intro h
    constructor
    · simp [upload_multiple_documents, h]
    · simp [upload_multiple_documents, h]
  · intro h
    have h' : ¬ files.length > 50 := by omega
    simp [upload_multiple_documents, h']

/-- Witness for claim C10: 51 identical files are rejected with HTTP 400;
an empty batch proceeds to processing. -/
theorem upload_limit_50_witness :
    ((List.replicate 51 (⟨"a.pdf", none⟩ : UploadFile)).length > 50 ∧
     upload_multiple_documents (List.replicate 51 ⟨"a.pdf", none⟩) [] [] =
       .httpError 400 "Maximum 50 fichiers autorisés par requête") ∧
    (([] : List UploadFile).length ≤ 50 ∧
     upload_multiple_documents [] [] [] = .batch (process_multiple_files [] [] [])) :=
  ⟨⟨by decide,
     ((upload_limit_50 (List.replicate 51 ⟨"a.pdf", none⟩) [] [] [] []).1 (by decide)).1⟩,
   ⟨by decide, (upload_limit_50 [] [] [] [] []).2 (by decide)⟩⟩

end CarteFin
